import Mathlib

/-!
Verification of the speech subsystem of the ai-chat-app repository.

The definitions below are a shallow embedding of the client speech handler
(src/client/src/lib/speech.ts, the SpeechHandler class) and of the TTS error
shape produced by the server route (src/server/routes.ts, POST /api/tts).

Two models are developed:

1. `speakSim`: an executable simulation of one `speak(text, voiceId)` call
   (speech.ts lines 228-590), parameterised by an environment describing the
   fetch outcome and the platform faults (streaming-buffer failures, play()
   rejections).  The JS event scheduling assumed for the chunked-stream path
   is stated in the doc comments of `msReadLoop` and `onUpdateEnd`.

2. `step` / `runEvents`: a handler-level event system for the SpeechHandler
   instance state (the isSpeaking / isListening flags, conversation mode,
   the shared audio sink, blob-URL bookkeeping), with one event per handler
   block of the source.  Reachable states are those obtained by running a
   list of events from the constructor state.

Bytes are modelled as Nat, blob URLs as Nat identifiers, and the playback
rate as a rational number.  String length matches the JS `text.length` for
the ASCII texts used throughout (Lean counts codepoints, JS counts UTF-16
units; these agree on ASCII).
-/

deriving instance DecidableEq for Except

namespace AiChatApp

/-- A chunk of the audio byte stream. -/
abbrev ByteChunk := List Nat

/-- The fetch Response for the synthesis request, as the client sees it:
HTTP success flag, status, the decoded error field of the JSON error body
(none when the body is absent or fails to parse, modelling the
`.catch(() => (\x7b\x7d))` at speech.ts line 267), the body chunks, and
whether the body has already been consumed (a Response body can be read at
most once: `blob()` or `getReader()` disturb it). -/
structure Resp where
  ok : Bool
  status : Nat
  errorField : Option String
  chunks : List ByteChunk
  bodyUsed : Bool
deriving Repr, DecidableEq

/-- `response.blob()` (speech.ts line 306): yields the whole body, or throws
a TypeError when the body stream was already read or locked. -/
def Resp.blobBytes (r : Resp) : Except String (List Nat) :=
  if r.bodyUsed then Except.error "body stream already read"
  else Except.ok r.chunks.flatten

/-- Rejection reasons of a `speak` call, one constructor per throw site in
speech.ts: the quota branch (line 269), the generic branch (line 271), a
fetch rejection (line 252), a rejected `play()` call (lines 323-329 and
573-580, carrying the DOM error name), a `blob()` failure (line 306), and a
chunked-stream error delivered through `handleError` (lines 412-416). -/
inductive SpeakRejection
  | quotaExceeded (msg : String)
  | synthesisUnavailable (msg : String)
  | networkFailure
  | playFailed (name : String)
  | blobFailed (msg : String)
  | mediaSourceErr (msg : String)
deriving Repr, DecidableEq

/-- The fixed message of the quota throw at speech.ts line 269. -/
def quotaMsg : String := "Voice synthesis quota exceeded. Please try again later."

/-- The fallback message of the generic throw at speech.ts line 271. -/
def unavailableMsg : String := "Voice synthesis unavailable. Please check your audio settings."

/-- Does the character list start with the pattern? -/
def charsStartWith : List Char → List Char → Bool
  | [], _ => true
  | _ :: _, [] => false
  | a :: as, b :: bs => a == b && charsStartWith as bs

/-- Does the character list contain the pattern as a contiguous run?  This
is the semantics of the JS `String.prototype.includes`. -/
def charsContain (pat : List Char) : List Char → Bool
  | [] => charsStartWith pat []
  | c :: t => charsStartWith pat (c :: t) || charsContain pat t

/-- The marker the client looks for in the error payload
(`errorData.error?.includes("quota_exceeded")`, speech.ts line 268); the
server emits exactly this marker in its quota response
(routes.ts lines 178-183). -/
def containsMarker (s : String) : Bool :=
  charsContain "quota_exceeded".data s.data

/-- The non-success branch of `speak` (speech.ts lines 266-273): with a
decoded error field containing the marker, throw the quota error; otherwise
throw `errorData.error || unavailableMsg` (the JS `||` also replaces an
empty string); with no decodable error field, throw the fallback message. -/
def ttsErrorRejection (errorField : Option String) : SpeakRejection :=
  match errorField with
  | some e =>
      if containsMarker e then SpeakRejection.quotaExceeded quotaMsg
      else if e = "" then SpeakRejection.synthesisUnavailable unavailableMsg
      else SpeakRejection.synthesisUnavailable e
  | none => SpeakRejection.synthesisUnavailable unavailableMsg

/-- The playback strategies of section "speak" (speech.ts lines 281-293). -/
inductive Strategy
  | directBlob
  | chunkedStream
deriving Repr, DecidableEq

/-- Environment of one `speak` call: platform capabilities and injected
faults.  `appendFaultAt` gives the index of the `appendBuffer` call that
throws an InvalidStateError DOMException (the streaming-buffer fault of
speech.ts lines 397-407); `blobPlayRejects` / `msPlayRejects` give the DOM
error name when `audio.play()` rejects on the respective path. -/
structure SpeakEnv where
  hasMediaSource : Bool
  fetchOk : Bool
  resp : Resp
  addSourceBufferFails : Bool
  appendFaultAt : Option Nat
  blobPlayRejects : Option String
  msPlayRejects : Option String
deriving Repr, DecidableEq

/-- `playWithDirectBlob` (speech.ts lines 302-352): read the whole body as
a blob (consuming it), create an object URL, set the sink playback rate to
1.26 (line 317), and play.  Returns the playback outcome (the bytes handed
to the sink on success), the response with its updated `bodyUsed`, and the
playback-rate values in force at each `play()` call made. -/
def playWithDirectBlob (env : SpeakEnv) (r : Resp) :
    Except SpeakRejection (List Nat) × Resp × List ℚ :=
  match r.blobBytes with
  | Except.error m => (Except.error (SpeakRejection.blobFailed m), r, [])
  | Except.ok bytes =>
      let r2 : Resp := { r with bodyUsed := true }
      match env.blobPlayRejects with
      | some name => (Except.error (SpeakRejection.playFailed name), r2, [(1.26 : ℚ)])
      | none => (Except.ok bytes, r2, [(1.26 : ℚ)])

/-- Mutable locals of `playWithMediaSource` (speech.ts lines 378-384 and
the derived bookkeeping): the chunk queue, the open/valid flags, the
updating flag of the source buffer, the bytes successfully appended, the
count of `appendBuffer` calls made, the count of `play()` attempts, whether
`endOfStream` ran, whether the object URL was revoked by `cleanup`, and the
settlement of the enclosing promise (`none` while it is still pending). -/
structure MSState where
  isMediaSourceOpen : Bool
  isSourceBufferValid : Bool
  sourceBufferExists : Bool
  sourceBufferUpdating : Bool
  streamingComplete : Bool
  playbackStarted : Bool
  pendingChunks : List ByteChunk
  appendedBytes : List Nat
  appendCalls : Nat
  playAttempts : Nat
  endOfStreamDone : Bool
  urlRevoked : Bool
  settled : Option (Except SpeakRejection Bool)
deriving Repr, DecidableEq

/-- `processNextChunk` (speech.ts lines 387-408).  When the guards pass and
the buffer is not updating, it shifts the queue head and calls
`appendBuffer`; a faulted append throws an InvalidStateError, the catch
marks the buffer invalid and rethrows a wrapped Error.  The function is
async and both of its call sites (the updateend listener at line 452 and
the read loop at lines 519 and 523) invoke it WITHOUT await, so the
returned thrown error (second component) is dropped by every caller: it
rejects an unobserved promise and never reaches the enclosing promise of
`playWithMediaSource`. -/
def processNextChunk (env : SpeakEnv) (s : MSState) : MSState × Option String :=
  if !s.sourceBufferExists || !s.isSourceBufferValid || !s.isMediaSourceOpen
      || s.pendingChunks.isEmpty then
    (s, none)
  else if s.sourceBufferUpdating then
    (s, none)
  else
    match s.pendingChunks with
    | [] => (s, none)
    | c :: rest =>
        if env.appendFaultAt = some s.appendCalls then
          ({ s with pendingChunks := rest
                    appendCalls := s.appendCalls + 1
                    isSourceBufferValid := false },
           some "MediaSource buffer error")
        else
          ({ s with pendingChunks := rest
                    appendCalls := s.appendCalls + 1
                    appendedBytes := s.appendedBytes ++ c
                    sourceBufferUpdating := true }, none)

/-- `cleanup` followed by `reject` (speech.ts lines 412-431): end the
stream if still open, revoke the object URL, drop the flags and the queue,
and settle the promise with the error. -/
def msHandleError (e : SpeakRejection) (s : MSState) : MSState :=
  { s with endOfStreamDone := s.endOfStreamDone || (s.isMediaSourceOpen && !s.endOfStreamDone)
           urlRevoked := true
           isMediaSourceOpen := false
           isSourceBufferValid := false
           pendingChunks := []
           settled := match s.settled with | some r => some r | none => some (Except.error e) }

/-- The updateend listener (speech.ts lines 451-476) together with
`startPlayback` (lines 567-581): the finished append clears the updating
flag, the listener pulls the next queued chunk, then, while playback has
not started and the buffer is not updating again, calls `play()` — a
fulfilled play resolves the enclosing promise with true, a rejected play
goes to `handleError`; finally, when streaming is complete and everything
is drained, it ends the stream. -/
def onUpdateEnd (env : SpeakEnv) (s : MSState) : MSState :=
  let s1 := (processNextChunk env { s with sourceBufferUpdating := false }).1
  let s2 :=
    if !s1.playbackStarted && s1.sourceBufferExists && !s1.sourceBufferUpdating then
      match env.msPlayRejects with
      | some name =>
          msHandleError (SpeakRejection.playFailed name)
            { s1 with playAttempts := s1.playAttempts + 1 }
      | none =>
          { s1 with playAttempts := s1.playAttempts + 1
                    playbackStarted := true
                    settled := match s1.settled with
                               | some r => some r
                               | none => some (Except.ok true) }
    else s1
  if s2.streamingComplete && s2.pendingChunks.isEmpty && s2.sourceBufferExists
      && !s2.sourceBufferUpdating && s2.isMediaSourceOpen then
    { s2 with endOfStreamDone := true }
  else s2

/-- The read loop of the sourceopen listener (speech.ts lines 489-530),
under the event schedule stated in `playWithMediaSource`: each arriving
chunk is pushed onto the queue (only while the buffer is valid and the
source open, line 507) and `processNextChunk` is invoked without await; if
that started an append, its updateend event is delivered before the next
read resolves.  When the reader reports done (lines 493-504), the loop
marks streaming complete and ends the stream if everything is drained. -/
def msReadLoop (env : SpeakEnv) : List ByteChunk → MSState → MSState
  | [], s =>
      let s1 := { s with streamingComplete := true }
      if s1.pendingChunks.isEmpty && s1.sourceBufferExists && !s1.sourceBufferUpdating
          && s1.isMediaSourceOpen then
        { s1 with endOfStreamDone := true }
      else s1
  | c :: rest, s =>
      let s1 :=
        if s.isSourceBufferValid && s.isMediaSourceOpen then
          let sA := { s with pendingChunks := s.pendingChunks ++ [c] }
          let sB := (processNextChunk env sA).1
          if sB.sourceBufferUpdating then onUpdateEnd env sB else sB
        else s
      msReadLoop env rest s1

/-- The initial locals of `playWithMediaSource` after the sourceopen event
fired (speech.ts lines 378-384, 433-434). -/
def msInit : MSState :=
  { isMediaSourceOpen := true
    isSourceBufferValid := false
    sourceBufferExists := false
    sourceBufferUpdating := false
    streamingComplete := false
    playbackStarted := false
    pendingChunks := []
    appendedBytes := []
    appendCalls := 0
    playAttempts := 0
    endOfStreamDone := false
    urlRevoked := false
    settled := none }

/-- `playWithMediaSource` (speech.ts lines 355-564).  Event schedule
assumed (one legal schedule of the JS event loop, documented here once):
the sourceopen event is delivered right after the object URL is assigned
to the sink; each successful append's updateend event is delivered before
the next network read resolves; the 5-second open-timeout (lines 558-562)
never fires because the source does open.  The sink playback rate is set
to 1.26 before the source is attached (line 375).  `addSourceBuffer`
happens before the body reader is acquired (lines 438 and 478), so a
failing `addSourceBuffer` rejects the promise with the body still
unconsumed; once the reader is acquired the body counts as used.  Returns
the final locals together with the response carrying its updated
`bodyUsed`. -/
def playWithMediaSource (env : SpeakEnv) (r : Resp) : MSState × Resp :=
  if env.addSourceBufferFails then
    (msHandleError (SpeakRejection.mediaSourceErr "addSourceBuffer failed") msInit, r)
  else
    let s1 := { msInit with sourceBufferExists := true, isSourceBufferValid := true }
    let r2 : Resp := { r with bodyUsed := true }
    (msReadLoop env r2.chunks s1, r2)

/-- Observable outcome of one `speak` call.  `settled` is the settlement of
the promise returned by `speak` (`none` when it never settles);
`isSpeakingAfter` is the value of the handler speaking flag once every
modeled execution step of the call has run; `strategiesAttempted` lists, in
order, each playback-method invocation made (lines 284, 288, 292);
`fetchCount` counts requests issued to the synthesis endpoint;
`playAttemptRates` records the sink playback rate in force at each `play()`
call; `playedBytes` is what the sink received for output. -/
structure SpeakResult where
  settled : Option (Except SpeakRejection Bool)
  isSpeakingAfter : Bool
  strategiesAttempted : List Strategy
  fetchCount : Nat
  playAttemptRates : List ℚ
  playedBytes : List Nat
deriving Repr, DecidableEq

/-- `speak(text, voiceId)` (speech.ts lines 228-299).  After stopping any
prior listening and playback, the flag is set (line 246) and one fetch is
issued (line 252).  A rejected fetch or a non-success status throws
(lines 266-273).  Otherwise the strategy split of lines 281-293 runs: short
text or no MediaSource support goes to `playWithDirectBlob`; longer text
attempts `playWithMediaSource`, and any error its promise rejects WITH is
caught at line 289 and retried through `playWithDirectBlob` on the same
response object — note the catch also re-runs `playWithDirectBlob` when the
direct path itself was the one that threw.  Any rejection reaching the
outer catch clears the speaking flag (line 296); a never-settling inner
promise leaves `speak` suspended at line 288 with the flag still true. -/
def speakSim (env : SpeakEnv) (text : String) : SpeakResult :=
  if !env.fetchOk then
    { settled := some (Except.error SpeakRejection.networkFailure)
      isSpeakingAfter := false
      strategiesAttempted := []
      fetchCount := 1
      playAttemptRates := []
      playedBytes := [] }
  else if !env.resp.ok then
    { settled := some (Except.error (ttsErrorRejection env.resp.errorField))
      isSpeakingAfter := false
      strategiesAttempted := []
      fetchCount := 1
      playAttemptRates := []
      playedBytes := [] }
  else if text.length < 100 || !env.hasMediaSource then
    match playWithDirectBlob env env.resp with
    | (Except.ok bytes, _, rates) =>
        { settled := some (Except.ok true)
          isSpeakingAfter := true
          strategiesAttempted := [Strategy.directBlob]
          fetchCount := 1
          playAttemptRates := rates
          playedBytes := bytes }
    | (Except.error _, r2, rates) =>
        match playWithDirectBlob env r2 with
        | (Except.ok bytes, _, rates2) =>
            { settled := some (Except.ok true)
              isSpeakingAfter := true
              strategiesAttempted := [Strategy.directBlob, Strategy.directBlob]
              fetchCount := 1
              playAttemptRates := rates ++ rates2
              playedBytes := bytes }
        | (Except.error e2, _, rates2) =>
            { settled := some (Except.error e2)
              isSpeakingAfter := false
              strategiesAttempted := [Strategy.directBlob, Strategy.directBlob]
              fetchCount := 1
              playAttemptRates := rates ++ rates2
              playedBytes := [] }
  else
    match playWithMediaSource env env.resp with
    | (ms, r2) =>
        match ms.settled with
        | none =>
            { settled := none
              isSpeakingAfter := true
              strategiesAttempted := [Strategy.chunkedStream]
              fetchCount := 1
              playAttemptRates := List.replicate ms.playAttempts (1.26 : ℚ)
              playedBytes := ms.appendedBytes }
        | some (Except.ok b) =>
            { settled := some (Except.ok b)
              isSpeakingAfter := true
              strategiesAttempted := [Strategy.chunkedStream]
              fetchCount := 1
              playAttemptRates := List.replicate ms.playAttempts (1.26 : ℚ)
              playedBytes := ms.appendedBytes }
        | some (Except.error _) =>
            match playWithDirectBlob env r2 with
            | (Except.ok bytes, _, rates2) =>
                { settled := some (Except.ok true)
                  isSpeakingAfter := true
                  strategiesAttempted := [Strategy.chunkedStream, Strategy.directBlob]
                  fetchCount := 1
                  playAttemptRates := List.replicate ms.playAttempts (1.26 : ℚ) ++ rates2
                  playedBytes := bytes }
            | (Except.error e2, _, rates2) =>
                { settled := some (Except.error e2)
                  isSpeakingAfter := false
                  strategiesAttempted := [Strategy.chunkedStream, Strategy.directBlob]
                  fetchCount := 1
                  playAttemptRates := List.replicate ms.playAttempts (1.26 : ℚ) ++ rates2
                  playedBytes := [] }

/-- The shared audio sink (the single HTMLAudioElement owned by the
handler): its source URL (a Nat identifier for an object URL), playback
rate, current position, and paused flag. -/
structure AudioObj where
  srcUrl : Option Nat
  playbackRate : ℚ
  currentTime : ℚ
  paused : Bool
deriving Repr, DecidableEq

/-- Phase of an in-flight `speak` call: between line 246 (flag set, fetch
issued) and the settlement of the call. -/
inductive SpeakPhase
  | fetching (textLen : Nat)
deriving Repr, DecidableEq

/-- Instance state of the SpeechHandler (speech.ts lines 10-20) together
with the state of the two platform primitives it drives.  The primitive
fields model the asynchronous web APIs: `recognition.start()` and
`recognition.stop()` only REQUEST a transition, the listening flag changes
when the matching onstart/onend event is later delivered (lines 65-79);
`restartScheduled` models the pending 100 ms setTimeout of lines 77 and
97; `pendingListen` models a `startListening` call suspended at the
permission test await of line 178.  `audioPlaying` is the sink's real
output state (between a fulfilled play() and pause/ended), as opposed to
the `isSpeaking` flag field.  Blob URLs are numbered by `urlCounter`;
`createdUrls` and `revokedUrls` record `URL.createObjectURL` and
`URL.revokeObjectURL` calls; `currentUrl` is the URL currently assigned to
the sink's src.  `surfacedErrors` records the error kinds the recognition
onerror handler reports as hard errors (its console.error calls, lines
86-102). -/
structure HState where
  recognitionAvail : Bool
  isSpeaking : Bool
  isListening : Bool
  conversationMode : Bool
  audioSink : Option AudioObj
  audioPlaying : Bool
  recStartRequested : Bool
  recStopRequested : Bool
  recRunning : Bool
  pendingListen : Bool
  restartScheduled : Bool
  speakPhase : Option SpeakPhase
  urlCounter : Nat
  createdUrls : List Nat
  revokedUrls : List Nat
  currentUrl : Option Nat
  surfacedErrors : List String
deriving Repr, DecidableEq

/-- The constructor state (speech.ts lines 30-60, 118-146): recognition
initialised, the sink created by `setupAudioHandlers`, everything idle. -/
def initState : HState :=
  { recognitionAvail := true
    isSpeaking := false
    isListening := false
    conversationMode := false
    audioSink := some { srcUrl := none, playbackRate := 1, currentTime := 0, paused := true }
    audioPlaying := false
    recStartRequested := false
    recStopRequested := false
    recRunning := false
    pendingListen := false
    restartScheduled := false
    speakPhase := none
    urlCounter := 0
    createdUrls := []
    revokedUrls := []
    currentUrl := none
    surfacedErrors := [] }

/-- `stopListening` (speech.ts lines 217-226): when recognition exists and
the listening flag is set, call `recognition.stop()`.  The stop is only a
request to the primitive — the listening flag is cleared later by the
onend handler, not here. -/
def stopListeningFn (s : HState) : HState :=
  if s.recognitionAvail && s.isListening then { s with recStopRequested := true } else s

/-- A call of `startListening(...)` up to its first await (speech.ts lines
170-178): return immediately when recognition is unsupported, otherwise
suspend at the permission test. -/
def startListeningCall (s : HState) : HState :=
  if s.recognitionAvail then { s with pendingListen := true } else s

/-- `stopSpeaking` (speech.ts lines 583-590): when the sink exists and the
speaking flag is set, pause the sink, reset its position to 0 and clear
the flag; otherwise do nothing. -/
def stopSpeakingFn (s : HState) : HState :=
  match s.audioSink with
  | none => s
  | some a =>
      if s.isSpeaking then
        { s with audioSink := some { a with paused := true, currentTime := 0 }
                 audioPlaying := false
                 isSpeaking := false }
      else s

/-- Events of the handler-level system, one per handler block of
speech.ts.  Every event is a block the JS event loop runs atomically; the
step function applies its source lines. -/
inductive Ev
  | setMode (b : Bool)
  | listenResolve (perm : Bool)
  | recogStarted
  | recogEnded
  | recogFault (kind : String)
  | restartFire
  | speakBegin (textLen : Nat)
  | speakFetchFail
  | speakPlayOk
  | speakPlayFail
  | audioEnded
  | audioFault
  | stopSpeakEv
deriving Repr, DecidableEq

/-- One atomic handler block.
setMode: setConversationMode (lines 159-168).
listenResolve: resumption of `startListening` after the permission await
  (lines 179-214); refuses while the speaking flag is set (lines 185-189);
  `recognition.start()` on an already started primitive throws and the
  catch of line 211 swallows it, so only an idle primitive starts.
recogStarted: the primitive's onstart (lines 65-68).
recogEnded: onend (lines 70-79); restart is scheduled only when
  conversation mode is on and the speaking flag is off.
recogFault: onerror (lines 81-103); clears the listening flag; no-speech
  schedules a restart under the same condition and surfaces nothing; the
  other kinds surface a console error.
restartFire: the pending setTimeout runs `startListening` (lines 77, 97).
speakBegin: `speak` from entry to the fetch await (lines 233-261): stop
  listening if listening, stop current playback if speaking, set the
  speaking flag, issue the fetch.
speakFetchFail: the fetch rejected or the status check threw; the outer
  catch clears the flag (lines 294-298).
speakPlayOk: the response arrived and the direct-blob path played: object
  URL created and assigned, rate 1.26 set, play fulfilled; the play
  listener of lines 122-130 sets the flag and stops listening; the
  per-call onended of lines 333-343 is installed for `currentUrl`.
speakPlayFail: play rejected: the catches of lines 323-329 and 347-351
  run, then the outer catch (lines 294-298); the URL had been created.
audioEnded: the sink's ended event: the constructor listener (lines
  132-140) and the per-call onended (lines 333-343) both run — the flag is
  cleared, the current URL revoked, and in conversation mode listening is
  started again.
audioFault: the sink's error listener (lines 142-145).
stopSpeakEv: a direct `stopSpeaking()` call (lines 583-590). -/
def step (e : Ev) (s : HState) : HState :=
  match e with
  | Ev.setMode b =>
      let s1 := { s with conversationMode := b }
      if b then startListeningCall s1 else stopListeningFn s1
  | Ev.listenResolve perm =>
      if s.pendingListen then
        let s1 := { s with pendingListen := false }
        if !perm then s1
        else if s1.isSpeaking then s1
        else if !s1.isListening && !s1.recRunning then
          { s1 with recStartRequested := true, recRunning := true }
        else s1
      else s
  | Ev.recogStarted =>
      if s.recStartRequested then
        { s with recStartRequested := false, isListening := true }
      else s
  | Ev.recogEnded =>
      if s.recRunning then
        let s1 := { s with recRunning := false, recStopRequested := false
                           isListening := false }
        if s1.conversationMode && !s1.isSpeaking then
          { s1 with restartScheduled := true }
        else s1
      else s
  | Ev.recogFault kind =>
      if s.recRunning then
        let s1 := { s with isListening := false }
        if kind = "no-speech" then
          if s1.conversationMode && !s1.isSpeaking then
            { s1 with restartScheduled := true }
          else s1
        else { s1 with surfacedErrors := s1.surfacedErrors ++ [kind] }
      else s
  | Ev.restartFire =>
      if s.restartScheduled then
        startListeningCall { s with restartScheduled := false }
      else s
  | Ev.speakBegin textLen =>
      if s.speakPhase = none then
        let s1 := if s.isListening then stopListeningFn s else s
        let s2 := if s1.isSpeaking then stopSpeakingFn s1 else s1
        { s2 with isSpeaking := true, speakPhase := some (SpeakPhase.fetching textLen) }
      else s
  | Ev.speakFetchFail =>
      match s.speakPhase with
      | some (SpeakPhase.fetching _) => { s with isSpeaking := false, speakPhase := none }
      | none => s
  | Ev.speakPlayOk =>
      match s.speakPhase, s.audioSink with
      | some (SpeakPhase.fetching _), some a =>
          let u := s.urlCounter
          let s1 := { s with urlCounter := u + 1
                             createdUrls := s.createdUrls ++ [u]
                             currentUrl := some u
                             audioSink := some { a with srcUrl := some u
                                                        playbackRate := (1.26 : ℚ)
                                                        paused := false }
                             audioPlaying := true
                             isSpeaking := true
                             speakPhase := none }
          if s1.isListening then stopListeningFn s1 else s1
      | _, _ => s
  | Ev.speakPlayFail =>
      match s.speakPhase, s.audioSink with
      | some (SpeakPhase.fetching _), some a =>
          let u := s.urlCounter
          { s with urlCounter := u + 1
                   createdUrls := s.createdUrls ++ [u]
                   currentUrl := some u
                   audioSink := some { a with srcUrl := some u
                                              playbackRate := (1.26 : ℚ) }
                   isSpeaking := false
                   speakPhase := none }
      | _, _ => s
  | Ev.audioEnded =>
      if s.audioPlaying then
        let s1 := { s with audioPlaying := false, isSpeaking := false }
        let s2 := match s1.currentUrl with
                  | some u => { s1 with revokedUrls := s1.revokedUrls ++ [u]
                                        currentUrl := none }
                  | none => s1
        if s2.conversationMode then startListeningCall s2 else s2
      else s
  | Ev.audioFault =>
      match s.audioSink with
      | some _ => { s with isSpeaking := false, audioPlaying := false }
      | none => s
  | Ev.stopSpeakEv => stopSpeakingFn s

/-- Run a list of events from the constructor state. -/
def runEvents (es : List Ev) : HState :=
  es.foldl (fun s e => step e s) initState

/-- `getIsSpeaking` (speech.ts lines 646-648): returns the flag field. -/
def getIsSpeaking (s : HState) : Bool :=
  s.isSpeaking

/-- Structural invariant of the handler: the sink created by the
constructor is never dropped; the sink only emits while the speaking flag
is set; and while a speak call is suspended at its fetch the sink is not
emitting (the prior playback was stopped before the fetch was issued). -/
def Inv (s : HState) : Prop :=
  s.audioSink.isSome = true ∧
  (s.audioPlaying = true → s.isSpeaking = true) ∧
  (s.speakPhase.isSome = true → s.audioPlaying = false)

/-- A conversation-mode run reaching a speak call while the recognition
primitive is still delivering: enable conversation mode, resolve the
permission test, receive onstart, then call speak with a long text. -/
def c2Trace : List Ev :=
  [Ev.setMode true, Ev.listenResolve true, Ev.recogStarted, Ev.speakBegin 120]

/-- The run of c2Trace continued by the recognition onend event, delivered
while the speak call is still awaiting its fetch. -/
def c8Pre : List Ev :=
  [Ev.setMode true, Ev.listenResolve true, Ev.recogStarted, Ev.speakBegin 120]

/-- A run in which conversation mode is enabled while a session is
playing: the handler is speaking and a startListening call is suspended at
its permission test. -/
def c2TraceB : List Ev :=
  [Ev.speakBegin 10, Ev.speakPlayOk, Ev.setMode true]

/-- speak(A) played, then speak(B) issued while A is playing: the prefix
ends just after B superseded A and before B's playback begins. -/
def c1Pre : List Ev :=
  [Ev.speakBegin 10, Ev.speakPlayOk, Ev.speakBegin 20]

/-- c1Pre continued by B's successful playback start. -/
def c1Full : List Ev :=
  [Ev.speakBegin 10, Ev.speakPlayOk, Ev.speakBegin 20, Ev.speakPlayOk]

/-- A 120-character input, above the short-text threshold of line 283. -/
def c3LongText : String := String.mk (List.replicate 120 'a')

/-- Environment for the simulated streaming-buffer append failure on the
first chunk: a successful fetch of three chunks, MediaSource supported,
and the first appendBuffer call throwing. -/
def c3FaultEnv : SpeakEnv :=
  { hasMediaSource := true
    fetchOk := true
    resp := { ok := true, status := 200, errorField := none
              chunks := [[1], [2], [3]], bodyUsed := false }
    addSourceBufferFails := false
    appendFaultAt := some 0
    blobPlayRejects := none
    msPlayRejects := none }

/-- Environment for a chunked-stream setup failure: addSourceBuffer
throws, everything else healthy. -/
def c3SetupEnv : SpeakEnv :=
  { hasMediaSource := true
    fetchOk := true
    resp := { ok := true, status := 200, errorField := none
              chunks := [[1], [2], [3]], bodyUsed := false }
    addSourceBufferFails := true
    appendFaultAt := none
    blobPlayRejects := none
    msPlayRejects := none }

/-- A healthy environment used to instantiate the strategy-selection
claim. -/
def c4Env : SpeakEnv :=
  { hasMediaSource := true
    fetchOk := true
    resp := { ok := true, status := 200, errorField := none
              chunks := [[7], [8]], bodyUsed := false }
    addSourceBufferFails := false
    appendFaultAt := none
    blobPlayRejects := none
    msPlayRejects := none }

/-- A 120-character input used to instantiate the long-text branch of the
strategy-selection claim. -/
def c4LongText : String := String.mk (List.replicate 120 'b')

/-- An environment whose synthesis response is a quota error. -/
def c5Env : SpeakEnv :=
  { hasMediaSource := true
    fetchOk := true
    resp := { ok := false, status := 429, errorField := some "quota_exceeded"
              chunks := [], bodyUsed := false }
    addSourceBufferFails := false
    appendFaultAt := none
    blobPlayRejects := none
    msPlayRejects := none }

/-- An environment whose synthesis response is a generic server error. -/
def c9Env : SpeakEnv :=
  { hasMediaSource := true
    fetchOk := true
    resp := { ok := false, status := 500, errorField := some "server went away"
              chunks := [], bodyUsed := false }
    addSourceBufferFails := false
    appendFaultAt := none
    blobPlayRejects := none
    msPlayRejects := none }

/-- A healthy short-text environment used to instantiate the
playback-rate claim. -/
def c10Env : SpeakEnv :=
  { hasMediaSource := true
    fetchOk := true
    resp := { ok := true, status := 200, errorField := none
              chunks := [[3], [4]], bodyUsed := false }
    addSourceBufferFails := false
    appendFaultAt := none
    blobPlayRejects := none
    msPlayRejects := none }

theorem inv_step (e : Ev) (s : HState) (h : Inv s) : Inv (step e s) := by
  obtain ⟨h1, h2, h3⟩ := h
  unfold Inv
  cases e <;> simp only [step, stopListeningFn, startListeningCall, stopSpeakingFn] <;>
    repeat' split <;> first | exact ⟨h1, h2, h3⟩ | (try simp_all)

theorem inv_init : Inv initState := by
  unfold Inv initState
  simp

theorem inv_fold (es : List Ev) :
    ∀ s : HState, Inv s → Inv (es.foldl (fun s e => step e s) s) := by
  induction es with
  | nil => intro s h; exact h
  | cons e t ih =>
      intro s h
      exact ih (step e s) (inv_step e s h)

theorem inv_run (es : List Ev) : Inv (runEvents es) :=
  inv_fold es initState inv_init

theorem playWithDirectBlob_rates (env : SpeakEnv) (r : Resp) :
    (playWithDirectBlob env r).2.2 = [] ∨ (playWithDirectBlob env r).2.2 = [(1.26 : ℚ)] := by
  unfold playWithDirectBlob
  rcases r.blobBytes with m | bytes
  · left; rfl
  · rcases h : env.blobPlayRejects with _ | name <;> simp [h]

theorem speakSim_strat_noFetch (env : SpeakEnv) (text : String)
    (h : env.fetchOk = false ∨ env.resp.ok = false) :
    (speakSim env text).strategiesAttempted = [] := by
  rcases h with h | h
  · simp [speakSim, h]
  · cases hf : env.fetchOk <;> simp [speakSim, h, hf]

theorem speakSim_strat_short (env : SpeakEnv) (text : String)
    (hc : (decide (text.length < 100) || !env.hasMediaSource) = true)
    (hf : env.fetchOk = true) (hk : env.resp.ok = true) :
    (speakSim env text).strategiesAttempted = [Strategy.directBlob] ∨
    (speakSim env text).strategiesAttempted = [Strategy.directBlob, Strategy.directBlob] := by
  rcases hd : playWithDirectBlob env env.resp with ⟨res, r2, rates⟩
  cases res with
  | ok bytes => left; simp [speakSim, hf, hk, hc, hd]
  | error e =>
      rcases hd2 : playWithDirectBlob env r2 with ⟨res2, r3, rates2⟩
      cases res2 <;> (right; simp [speakSim, hf, hk, hc, hd, hd2])

theorem speakSim_strat_long (env : SpeakEnv) (text : String)
    (hc : (decide (text.length < 100) || !env.hasMediaSource) = false)
    (hf : env.fetchOk = true) (hk : env.resp.ok = true) :
    (speakSim env text).strategiesAttempted = [Strategy.chunkedStream] ∨
    (speakSim env text).strategiesAttempted = [Strategy.chunkedStream, Strategy.directBlob] := by
  rcases hm : playWithMediaSource env env.resp with ⟨ms, r2⟩
  rcases hs : ms.settled with _ | res
  · left; simp [speakSim, hf, hk, hc, hm, hs]
  · cases res with
    | ok b => left; simp [speakSim, hf, hk, hc, hm, hs]
    | error e =>
        rcases hd2 : playWithDirectBlob env r2 with ⟨res2, r3, rates2⟩
        cases res2 <;> (right; simp [speakSim, hf, hk, hc, hm, hs, hd2])

theorem speakSim_shape (env : SpeakEnv) (text : String) :
    (∀ e : SpeakRejection, (speakSim env text).settled = some (Except.error e) →
       (speakSim env text).isSpeakingAfter = false) ∧
    (∀ r ∈ (speakSim env text).playAttemptRates, r = (1.26 : ℚ)) ∧
    (speakSim env text).fetchCount = 1 := by
  cases hf : env.fetchOk
  · refine ⟨?_, ?_, ?_⟩ <;> simp [speakSim, hf]
  cases hk : env.resp.ok
  · refine ⟨?_, ?_, ?_⟩ <;> simp [speakSim, hf, hk]
  cases hc : (decide (text.length < 100) || !env.hasMediaSource)
  · rcases hm : playWithMediaSource env env.resp with ⟨ms, r2⟩
    rcases hs : ms.settled with _ | res
    · refine ⟨?_, ?_, ?_⟩
      · intro e h
        simp [speakSim, hf, hk, hc, hm, hs] at h
      · intro r hr
        simp [speakSim, hf, hk, hc, hm, hs] at hr
        exact hr.2
      · simp [speakSim, hf, hk, hc, hm, hs]
    · cases res with
      | ok b =>
          refine ⟨?_, ?_, ?_⟩
          · intro e h
            simp [speakSim, hf, hk, hc, hm, hs] at h
          · intro r hr
            simp [speakSim, hf, hk, hc, hm, hs] at hr
            exact hr.2
          · simp [speakSim, hf, hk, hc, hm, hs]
      | error e =>
          rcases hd2 : playWithDirectBlob env r2 with ⟨res2, r3, rates2⟩
          have hrr := playWithDirectBlob_rates env r2
          rw [hd2] at hrr
          simp only at hrr
          cases res2 with
          | ok bytes =>
              refine ⟨?_, ?_, ?_⟩
              · intro e2 h
                simp [speakSim, hf, hk, hc, hm, hs, hd2] at h
              · intro r hr
                simp [speakSim, hf, hk, hc, hm, hs, hd2] at hr
                rcases hr with hr | hr
                · exact hr.2
                · rcases hrr with hrr | hrr <;> simp [hrr] at hr <;> simp [hr]
              · simp [speakSim, hf, hk, hc, hm, hs, hd2]
          | error e2 =>
              refine ⟨?_, ?_, ?_⟩
              · intro e3 h
                simp [speakSim, hf, hk, hc, hm, hs, hd2]
              · intro r hr
                simp [speakSim, hf, hk, hc, hm, hs, hd2] at hr
                rcases hr with hr | hr
                · exact hr.2
                · rcases hrr with hrr | hrr <;> simp [hrr] at hr <;> simp [hr]
              · simp [speakSim, hf, hk, hc, hm, hs, hd2]
  · rcases hd : playWithDirectBlob env env.resp with ⟨res, r2, rates⟩
    have hr1 := playWithDirectBlob_rates env env.resp
    rw [hd] at hr1
    simp only at hr1
    cases res with
    | ok bytes =>
        refine ⟨?_, ?_, ?_⟩
        · intro e h
          simp [speakSim, hf, hk, hc, hd] at h
        · intro r hr
          simp [speakSim, hf, hk, hc, hd] at hr
          rcases hr1 with hr1 | hr1 <;> simp [hr1] at hr <;> simp [hr]
        · simp [speakSim, hf, hk, hc, hd]
    | error e =>
        rcases hd2 : playWithDirectBlob env r2 with ⟨res2, r3, rates2⟩
        have hr2 := playWithDirectBlob_rates env r2
        rw [hd2] at hr2
        simp only at hr2
        cases res2 with
        | ok bytes =>
            refine ⟨?_, ?_, ?_⟩
            · intro e2 h
              simp [speakSim, hf, hk, hc, hd, hd2] at h
            · intro r hr
              simp [speakSim, hf, hk, hc, hd, hd2] at hr
              rcases hr with hr | hr
              · rcases hr1 with hr1 | hr1 <;> simp [hr1] at hr <;> simp [hr]
              · rcases hr2 with hr2 | hr2 <;> simp [hr2] at hr <;> simp [hr]
            · simp [speakSim, hf, hk, hc, hd, hd2]
        | error e2 =>
            refine ⟨?_, ?_, ?_⟩
            · intro e3 h
              simp [speakSim, hf, hk, hc, hd, hd2]
            · intro r hr
              simp [speakSim, hf, hk, hc, hd, hd2] at hr
              rcases hr with hr | hr
              · rcases hr1 with hr1 | hr1 <;> simp [hr1] at hr <;> simp [hr]
              · rcases hr2 with hr2 | hr2 <;> simp [hr2] at hr <;> simp [hr]
            · simp [speakSim, hf, hk, hc, hd, hd2]

set_option maxRecDepth 16384 in
/-- Claim C3 counterexample: with a successful fetch of three chunks and a
streaming-buffer append failure on the very first chunk (the scenario the
claim describes), `speak` does NOT fall back to the direct-blob method and
produces no audible output at all: the append error is thrown inside a
`processNextChunk` invocation that no caller awaits, so the chunked-stream
promise never settles — `speak` stays suspended, the direct-blob method is
never invoked, and the bytes delivered to the sink are not the full body. -/
theorem c3_counterexample :
    (speakSim c3FaultEnv c3LongText).settled = none ∧
    (speakSim c3FaultEnv c3LongText).strategiesAttempted = [Strategy.chunkedStream] ∧
    (speakSim c3FaultEnv c3LongText).playedBytes ≠ c3FaultEnv.resp.chunks.flatten ∧
    (speakSim c3FaultEnv c3LongText).isSpeakingAfter = true := by
  refine ⟨by decide, by decide, by decide, by decide⟩

/-- Claim C3 amended: when the chunked-stream SETUP throws (addSourceBuffer
fails) before the body reader is acquired, `speak` falls back to the
direct-blob method on the same already-fetched response, issues no second
network request (one fetch in total), and produces the full body as
audible output; an append failure after the reader is acquired, by
contrast, never reaches the fallback (see the counterexample). -/
theorem c3_amended_setup_fallback (env : SpeakEnv) (text : String)
    (h1 : env.addSourceBufferFails = true) (h2 : env.fetchOk = true)
    (h3 : env.resp.ok = true) (h4 : env.resp.bodyUsed = false)
    (h5 : env.blobPlayRejects = none) (h6 : env.hasMediaSource = true)
    (h7 : 100 ≤ text.length) :
    (speakSim env text).settled = some (Except.ok true) ∧
    (speakSim env text).strategiesAttempted = [Strategy.chunkedStream, Strategy.directBlob] ∧
    (speakSim env text).playedBytes = env.resp.chunks.flatten ∧
    (speakSim env text).fetchCount = 1 := by
  have hlt : ¬(text.length < 100) := Nat.not_lt.mpr h7
  simp [speakSim, h2, h3, h6, hlt, playWithMediaSource, h1, msHandleError, msInit,
    playWithDirectBlob, Resp.blobBytes, h4, h5]

set_option maxRecDepth 16384 in
theorem c3_amended_setup_fallback_witness :
    (speakSim c3SetupEnv c3LongText).settled = some (Except.ok true) ∧
    (speakSim c3SetupEnv c3LongText).strategiesAttempted
        = [Strategy.chunkedStream, Strategy.directBlob] ∧
    (speakSim c3SetupEnv c3LongText).playedBytes = c3SetupEnv.resp.chunks.flatten ∧
    (speakSim c3SetupEnv c3LongText).fetchCount = 1 :=
  c3_amended_setup_fallback c3SetupEnv c3LongText (by decide) (by decide) (by decide)
    (by decide) (by decide) (by decide) (by decide)

/-- Claim C4 (confirmed): strategy selection is deterministic — for text
below the 100-character threshold, or when the runtime lacks MediaSource,
the chunked-stream method is never attempted and, whenever the response
check is passed, the first attempted method is direct-blob; otherwise the
first attempted method is chunked-stream. -/
theorem c4_strategy_selection (env : SpeakEnv) (text : String) :
    ((text.length < 100 ∨ env.hasMediaSource = false) →
       Strategy.chunkedStream ∉ (speakSim env text).strategiesAttempted) ∧
    ((text.length < 100 ∨ env.hasMediaSource = false) → env.fetchOk = true →
       env.resp.ok = true →
       (speakSim env text).strategiesAttempted.head? = some Strategy.directBlob) ∧
    (100 ≤ text.length → env.hasMediaSource = true → env.fetchOk = true →
       env.resp.ok = true →
       (speakSim env text).strategiesAttempted.head? = some Strategy.chunkedStream) := by
  refine ⟨?_, ?_, ?_⟩
  · intro h
    cases hf : env.fetchOk
    · simp [speakSim_strat_noFetch env text (Or.inl hf)]
    cases hk : env.resp.ok
    · simp [speakSim_strat_noFetch env text (Or.inr hk)]
    have hc : (decide (text.length < 100) || !env.hasMediaSource) = true := by
      rcases h with h | h <;> simp [h]
    rcases speakSim_strat_short env text hc hf hk with hl | hl <;> simp [hl]
  · intro h hf hk
    have hc : (decide (text.length < 100) || !env.hasMediaSource) = true := by
      rcases h with h | h <;> simp [h]
    rcases speakSim_strat_short env text hc hf hk with hl | hl <;> simp [hl]
  · intro h7 hm hf hk
    have hc : (decide (text.length < 100) || !env.hasMediaSource) = false := by
      simp [hm, Nat.not_lt.mpr h7]
    rcases speakSim_strat_long env text hc hf hk with hl | hl <;> simp [hl]

set_option maxRecDepth 16384 in
theorem c4_strategy_selection_witness :
    Strategy.chunkedStream ∉ (speakSim c4Env "Hi").strategiesAttempted ∧
    (speakSim c4Env "Hi").strategiesAttempted.head? = some Strategy.directBlob ∧
    (speakSim c4Env c4LongText).strategiesAttempted.head? = some Strategy.chunkedStream :=
  ⟨(c4_strategy_selection c4Env "Hi").1 (Or.inl (by decide)),
   (c4_strategy_selection c4Env "Hi").2.1 (Or.inl (by decide)) (by decide) (by decide),
   (c4_strategy_selection c4Env c4LongText).2.2 (by decide) (by decide) (by decide) (by decide)⟩

/-- Claim C5 (confirmed): for a non-success synthesis response, `speak`
rejects through the quota throw site exactly when the decoded error
payload contains the quota marker, and through the generic
synthesis-unavailable throw site otherwise; the two outcomes are distinct
constructors. -/
theorem c5_quota_distinction (ef : Option String) (env : SpeakEnv) (text : String)
    (m m2 : String) :
    (ttsErrorRejection ef = SpeakRejection.quotaExceeded quotaMsg ↔
       ∃ e, ef = some e ∧ containsMarker e = true) ∧
    SpeakRejection.quotaExceeded m ≠ SpeakRejection.synthesisUnavailable m2 ∧
    (env.fetchOk = true → env.resp.ok = false →
       (speakSim env text).settled
         = some (Except.error (ttsErrorRejection env.resp.errorField))) := by
  refine ⟨?_, by simp, ?_⟩
  · rcases ef with _ | e
    · simp [ttsErrorRejection]
    · by_cases hm : containsMarker e = true
      · simp [ttsErrorRejection, hm]
      · rw [Bool.not_eq_true] at hm
        by_cases he : e = "" <;> simp [ttsErrorRejection, hm, he]
  · intro hf hk
    simp [speakSim, hf, hk]

theorem c5_quota_distinction_witness :
    (ttsErrorRejection (some "quota_exceeded") = SpeakRejection.quotaExceeded quotaMsg ↔
       ∃ e, (some "quota_exceeded" : Option String) = some e ∧ containsMarker e = true) ∧
    SpeakRejection.quotaExceeded quotaMsg ≠ SpeakRejection.synthesisUnavailable unavailableMsg ∧
    (speakSim c5Env "Hi").settled
        = some (Except.error (ttsErrorRejection c5Env.resp.errorField)) := by
  have h := c5_quota_distinction (some "quota_exceeded") c5Env "Hi" quotaMsg unavailableMsg
  exact ⟨h.1, h.2.1, h.2.2 (by decide) (by decide)⟩

/-- Claim C9 (confirmed): whenever a `speak` call rejects — for any input
and any modeled failure cause — the speaking flag is false at the moment
of rejection; every throw path of the call runs through a catch that
clears the flag before rethrowing. -/
theorem c9_reject_clears_flag (env : SpeakEnv) (text : String) (e : SpeakRejection)
    (h : (speakSim env text).settled = some (Except.error e)) :
    (speakSim env text).isSpeakingAfter = false :=
  (speakSim_shape env text).1 e h

theorem c9_reject_clears_flag_witness :
    (speakSim c9Env "Hi").isSpeakingAfter = false :=
  c9_reject_clears_flag c9Env "Hi"
    (SpeakRejection.synthesisUnavailable "server went away") (by decide)

/-- Claim C10 (confirmed): every playback started by `speak`, on the
direct-blob path and on the chunked-stream path alike, has the sink
playback rate set to 1.26 at the moment of the `play()` call. -/
theorem c10_playback_rate (env : SpeakEnv) (text : String) (r : ℚ)
    (h : r ∈ (speakSim env text).playAttemptRates) :
    r = (1.26 : ℚ) :=
  (speakSim_shape env text).2.1 r h

theorem c10_playback_rate_witness :
    ((1.26 : ℚ) ∈ (speakSim c10Env "Hi").playAttemptRates) ∧ (1.26 : ℚ) = (1.26 : ℚ) := by
  have hl : (speakSim c10Env "Hi").playAttemptRates = [(1.26 : ℚ)] := rfl
  have hmem : (1.26 : ℚ) ∈ (speakSim c10Env "Hi").playAttemptRates := by
    rw [hl]; exact List.mem_singleton.mpr rfl
  exact ⟨hmem, c10_playback_rate c10Env "Hi" (1.26 : ℚ) hmem⟩

/-- Claim C1 counterexample: speak(A) plays (object URL 0), speak(B) is
issued while A is playing and then plays (object URL 1).  At the moment
just before B's playback begins, A's output has been halted but A's
transient buffer has NOT been released — the revocation list is empty, not
a single release — and it remains unreleased after B is playing: A's
resources are released zero times, not exactly once. -/
theorem c1_counterexample :
    (runEvents c1Pre).audioPlaying = false ∧
    (runEvents c1Pre).currentUrl = some 0 ∧
    (runEvents c1Pre).revokedUrls = [] ∧
    (runEvents c1Full).audioPlaying = true ∧
    (runEvents c1Full).createdUrls = [0, 1] ∧
    (runEvents c1Full).revokedUrls = [] := by
  refine ⟨by decide, by decide, by decide, by decide, by decide, by decide⟩

/-- Claim C1 amended: in every reachable state with a session playing, a
new speak call halts the prior output before the new session's playback
can begin — the sink is paused with its position reset, and the speaking
flag is carried by the new call (the single shared sink makes two
simultaneously playing sessions structurally impossible) — but the prior
session's transient blob URL is NOT revoked at supersession: the
revocation list is unchanged. -/
theorem c1_amended_halt_without_revoke (es : List Ev) (n : Nat)
    (hp : (runEvents es).audioPlaying = true)
    (hph : (runEvents es).speakPhase = none) :
    (step (Ev.speakBegin n) (runEvents es)).audioPlaying = false ∧
    (step (Ev.speakBegin n) (runEvents es)).audioSink.map AudioObj.currentTime = some 0 ∧
    (step (Ev.speakBegin n) (runEvents es)).audioSink.map AudioObj.paused = some true ∧
    (step (Ev.speakBegin n) (runEvents es)).isSpeaking = true ∧
    (step (Ev.speakBegin n) (runEvents es)).revokedUrls = (runEvents es).revokedUrls := by
  obtain ⟨h1, h2, h3⟩ := inv_run es
  have hsp := h2 hp
  obtain ⟨a, ha⟩ := Option.isSome_iff_exists.mp h1
  cases hl : (runEvents es).isListening <;>
    cases hrv : (runEvents es).recognitionAvail <;>
      simp [step, hph, hsp, ha, hl, hrv, stopListeningFn, stopSpeakingFn]

theorem c1_amended_halt_without_revoke_witness :
    (step (Ev.speakBegin 20) (runEvents [Ev.speakBegin 10, Ev.speakPlayOk])).audioPlaying
        = false ∧
    (step (Ev.speakBegin 20) (runEvents [Ev.speakBegin 10, Ev.speakPlayOk])).audioSink.map
        AudioObj.currentTime = some 0 ∧
    (step (Ev.speakBegin 20) (runEvents [Ev.speakBegin 10, Ev.speakPlayOk])).audioSink.map
        AudioObj.paused = some true ∧
    (step (Ev.speakBegin 20) (runEvents [Ev.speakBegin 10, Ev.speakPlayOk])).isSpeaking
        = true ∧
    (step (Ev.speakBegin 20) (runEvents [Ev.speakBegin 10, Ev.speakPlayOk])).revokedUrls
        = (runEvents [Ev.speakBegin 10, Ev.speakPlayOk]).revokedUrls :=
  c1_amended_halt_without_revoke [Ev.speakBegin 10, Ev.speakPlayOk] 20 (by decide) (by decide)

/-- Claim C2 counterexample: a reachable conversation-mode state in which
the listening flag and the speaking flag are both true at the same
instant: speak is called while recognition is delivering; it requests the
primitive stop and sets the speaking flag synchronously, but the listening
flag stays true until the primitive's asynchronous ended event arrives. -/
theorem c2_counterexample :
    (runEvents c2Trace).conversationMode = true ∧
    (runEvents c2Trace).isListening = true ∧
    (runEvents c2Trace).isSpeaking = true := by
  refine ⟨by decide, by decide, by decide⟩

/-- Claim C2 amended: the three mechanisms the claim cites do hold —
playback start sets the speaking flag and requests a recognition stop,
startListening refuses to start the primitive while the speaking flag is
set, and the ended handler never schedules a restart while the speaking
flag is set — but they do not make the two flags mutually exclusive,
because the capture primitive stops asynchronously (see the
counterexample). -/
theorem c2_amended_mechanisms (s : HState) (n : Nat) (perm : Bool) :
    (s.speakPhase = some (SpeakPhase.fetching n) → s.audioSink.isSome = true →
       s.recognitionAvail = true →
       ((step Ev.speakPlayOk s).isSpeaking = true ∧
        (s.isListening = true → (step Ev.speakPlayOk s).recStopRequested = true))) ∧
    (s.pendingListen = true → s.isSpeaking = true →
       ((step (Ev.listenResolve perm) s).recStartRequested = s.recStartRequested ∧
        (step (Ev.listenResolve perm) s).recRunning = s.recRunning ∧
        (step (Ev.listenResolve perm) s).isListening = s.isListening)) ∧
    (s.isSpeaking = true →
       (step Ev.recogEnded s).restartScheduled = s.restartScheduled) := by
  refine ⟨?_, ?_, ?_⟩
  · intro hph hso hav
    obtain ⟨a, ha⟩ := Option.isSome_iff_exists.mp hso
    cases hl : s.isListening <;>
      simp [step, hph, ha, hl, stopListeningFn, hav]
  · intro hpl hsp
    cases hperm : perm <;> simp [step, hpl, hsp]
  · intro hsp
    cases hr : s.recRunning <;> simp [step, hr, hsp]

theorem c2_amended_mechanisms_witness :
    ((step Ev.speakPlayOk (runEvents c2Trace)).isSpeaking = true ∧
     (step Ev.speakPlayOk (runEvents c2Trace)).recStopRequested = true) ∧
    ((step (Ev.listenResolve true) (runEvents c2TraceB)).recStartRequested
        = (runEvents c2TraceB).recStartRequested ∧
     (step (Ev.listenResolve true) (runEvents c2TraceB)).recRunning
        = (runEvents c2TraceB).recRunning ∧
     (step (Ev.listenResolve true) (runEvents c2TraceB)).isListening
        = (runEvents c2TraceB).isListening) ∧
    (step Ev.recogEnded (runEvents c2Trace)).restartScheduled
        = (runEvents c2Trace).restartScheduled := by
  have h1 := (c2_amended_mechanisms (runEvents c2Trace) 120 true).1
    (by decide) (by decide) (by decide)
  have h2 := (c2_amended_mechanisms (runEvents c2TraceB) 0 true).2.1 (by decide) (by decide)
  have h3 := (c2_amended_mechanisms (runEvents c2Trace) 0 true).2.2 (by decide)
  exact ⟨⟨h1.1, h1.2 (by decide)⟩, h2, h3⟩

/-- Claim C6 counterexample: immediately after a speak call is issued —
with the synthesis fetch still in flight and no session playing — the
speaking-state observer already returns true: the flag is set before
playback starts, so it is not true exactly while a session is playing. -/
theorem c6_counterexample :
    getIsSpeaking (runEvents [Ev.speakBegin 10]) = true ∧
    (runEvents [Ev.speakBegin 10]).audioPlaying = false := by
  refine ⟨by decide, by decide⟩

/-- Claim C6 amended: the observer never misses a playing session — in
every reachable state in which the sink is emitting, getIsSpeaking returns
true — but it is not true ONLY then: the flag is set from the start of a
speak call, before the synthesis request (see the counterexample), and is
cleared on ended, error and stop. -/
theorem c6_amended_flag_during_playing (es : List Ev)
    (h : (runEvents es).audioPlaying = true) :
    getIsSpeaking (runEvents es) = true :=
  (inv_run es).2.1 h

theorem c6_amended_flag_during_playing_witness :
    getIsSpeaking (runEvents [Ev.speakBegin 10, Ev.speakPlayOk]) = true :=
  c6_amended_flag_during_playing [Ev.speakBegin 10, Ev.speakPlayOk] (by decide)

/-- Claim C7 (confirmed): stopSpeaking is idempotent and total — applying
it twice equals applying it once, it never leaves the speaking flag or the
sink-output state set, it is a no-op when nothing is in progress, and when
the flag was set it pauses the sink and resets its position to 0. -/
theorem c7_stop_idempotent (es : List Ev) :
    stopSpeakingFn (stopSpeakingFn (runEvents es)) = stopSpeakingFn (runEvents es) ∧
    (stopSpeakingFn (runEvents es)).isSpeaking = false ∧
    (stopSpeakingFn (runEvents es)).audioPlaying = false ∧
    ((runEvents es).isSpeaking = false → stopSpeakingFn (runEvents es) = runEvents es) ∧
    ((runEvents es).isSpeaking = true →
       ((stopSpeakingFn (runEvents es)).audioSink.map AudioObj.currentTime = some 0 ∧
        (stopSpeakingFn (runEvents es)).audioSink.map AudioObj.paused = some true)) := by
  obtain ⟨h1, h2, h3⟩ := inv_run es
  obtain ⟨a, ha⟩ := Option.isSome_iff_exists.mp h1
  cases hs : (runEvents es).isSpeaking
  · have hnp : (runEvents es).audioPlaying = false := by
      cases hpl : (runEvents es).audioPlaying
      · rfl
      · rw [h2 hpl] at hs; cases hs
    have hid : stopSpeakingFn (runEvents es) = runEvents es := by
      simp [stopSpeakingFn, ha, hs]
    refine ⟨?_, ?_, ?_, fun _ => hid, fun hcon => ?_⟩
    · rw [hid, hid]
    · rw [hid]; exact hs
    · rw [hid]; exact hnp
    · simp [hs] at hcon
  · simp [stopSpeakingFn, ha, hs]

theorem c7_stop_idempotent_witness :
    stopSpeakingFn (stopSpeakingFn (runEvents ([] : List Ev)))
        = stopSpeakingFn (runEvents ([] : List Ev)) ∧
    stopSpeakingFn (runEvents ([] : List Ev)) = runEvents ([] : List Ev) ∧
    (stopSpeakingFn (runEvents [Ev.speakBegin 10, Ev.speakPlayOk])).isSpeaking = false ∧
    (stopSpeakingFn (runEvents [Ev.speakBegin 10, Ev.speakPlayOk])).audioSink.map
        AudioObj.currentTime = some 0 := by
  have hA := c7_stop_idempotent []
  have hB := c7_stop_idempotent [Ev.speakBegin 10, Ev.speakPlayOk]
  exact ⟨hA.1, hA.2.2.2.1 (by decide), hB.2.1, (hB.2.2.2.2 (by decide)).1⟩

/-- Claim C8 counterexample: an ended event delivered while conversation
mode is enabled and NO playback session is playing (a speak call is merely
awaiting its synthesis fetch) does not restart recognition: the handler
tests the speaking flag, which is already set during the fetch, so no
restart is scheduled and no listening is initiated — refuting restart "if
and only if conversation mode is enabled and no session is playing". -/
theorem c8_counterexample :
    (runEvents c8Pre).conversationMode = true ∧
    (runEvents c8Pre).audioPlaying = false ∧
    (runEvents c8Pre).recRunning = true ∧
    (step Ev.recogEnded (runEvents c8Pre)).restartScheduled = false ∧
    (step Ev.recogEnded (runEvents c8Pre)).pendingListen = false := by
  refine ⟨by decide, by decide, by decide, by decide, by decide⟩

/-- Claim C8 amended: on an ended event, recognition restart is scheduled
if and only if conversation mode is enabled and the speaking FLAG is false
— the flag covers the whole speak call, so restart is suppressed during
the synthesis fetch as well as during playback; a no-speech error is
treated identically to ended for restart purposes, clears the listening
flag the same way, and surfaces no hard error. -/
theorem c8_amended_restart_policy (s : HState) (hr : s.recRunning = true) :
    (step Ev.recogEnded s).restartScheduled
        = (s.restartScheduled || (s.conversationMode && !s.isSpeaking)) ∧
    (step (Ev.recogFault "no-speech") s).restartScheduled
        = (s.restartScheduled || (s.conversationMode && !s.isSpeaking)) ∧
    (step (Ev.recogFault "no-speech") s).surfacedErrors = s.surfacedErrors ∧
    (step (Ev.recogFault "no-speech") s).isListening = false ∧
    (step Ev.recogEnded s).isListening = false := by
  cases hc : s.conversationMode <;> cases hsp : s.isSpeaking <;>
    cases hrs : s.restartScheduled <;> simp [step, hr, hc, hsp, hrs]

theorem c8_amended_restart_policy_witness :
    (step Ev.recogEnded (runEvents c8Pre)).restartScheduled
        = ((runEvents c8Pre).restartScheduled
            || ((runEvents c8Pre).conversationMode && !(runEvents c8Pre).isSpeaking)) ∧
    (step (Ev.recogFault "no-speech") (runEvents c8Pre)).restartScheduled
        = ((runEvents c8Pre).restartScheduled
            || ((runEvents c8Pre).conversationMode && !(runEvents c8Pre).isSpeaking)) ∧
    (step (Ev.recogFault "no-speech") (runEvents c8Pre)).surfacedErrors
        = (runEvents c8Pre).surfacedErrors ∧
    (step (Ev.recogFault "no-speech") (runEvents c8Pre)).isListening = false ∧
    (step Ev.recogEnded (runEvents c8Pre)).isListening = false :=
  c8_amended_restart_policy (runEvents c8Pre) (by decide)

end AiChatApp
